import Mathlib

/-!
Shallow embedding of the Zeal melody engine (src/Zeal/melody.cpp).

The `Melody` class owns the bard song loop: a list of spell-gem indices
(`songs`), the current position (`current_index`), a failure counter
(`retry_count`) and two timestamp statics used by `tick` for debouncing.
Host-side game state (world loaded, character info, entity stance, the
casting window, spell manager, target) is read through global accessors in
the C++ source; here it is packaged into an `Env` record passed to each
operation.  Side effects other than state mutation (chat messages, the
StopCast call issued by `stop_current_cast`, and the actual spell cast) are
returned as a list of `Effect` values.

Machine-integer notes: `current_index` is a C++ `int`, modelled as `Int`
(its value stays in `[-1, songs.length)`, far from overflow).
`retry_count` is a C++ `int` that is only ever incremented from 0 or reset
to 0, so it is modelled as `Nat`.  The two timestamps are `ULONGLONG`
(64-bit unsigned); their subtraction wraps modulo 2^64, modelled by
`usub64`.
-/

/-- Stance values compared against in melody.cpp (`Stance::Stand`,
`Stance::Sit`); the other constructors stand for the remaining stances
(looting/`Bind`, ducking, ...). -/
inductive Stance where
  | Stand
  | Sit
  | Duck
  | Bind
  deriving DecidableEq, Repr

/-- The slice of `EQCHARINFO` that melody.cpp reads: the stunned flag and
the memorized-spell array (indexed by spell gem, `-1` meaning empty).
`MemorizedSpell` is modelled as a total function from gem index to spell
id so that out-of-range reads stay definable. -/
structure EQCHARINFO where
  stunnedState : Bool
  memorizedSpell : Int → Int

/-- The slice of the `ActorInfo` record that melody.cpp reads. -/
structure ActorInfo where
  castingSpellGemNumber : Nat
  deriving DecidableEq, Repr

/-- The slice of the self `Entity` that melody.cpp reads. -/
structure Entity where
  standingState : Stance
  actorInfo : Option ActorInfo

/-- Point-in-time host state, read in the C++ source through the global
accessors `is_in_game`, `get_char_info`, `get_self`, `get_eq`,
`Windows->Casting`, `get_spell_mgr`, `get_target` and `GetTickCount64`.
`castingWindow = none` models a structurally absent casting window,
`some b` a window whose `IsVisible` flag is `b`.  `okToTransact` combines
`get_eq() != nullptr && get_eq()->IsOkToTransact()`. -/
structure Env where
  is_in_game : Bool
  char_info : Option EQCHARINFO
  self : Option Entity
  okToTransact : Bool
  castingWindow : Option Bool
  now : Nat
  hasSpellMgr : Bool
  spellTargetType : Int → Int
  hasTarget : Bool

/-- Chat lines printed by melody.cpp, one constructor per distinct
`print_chat` call site. -/
inductive ChatMsg where
  | cannotStartStunned
  | mustStand
  | invalidGem
  | emptyGem
  | beginMelody
  | melodyEnded
  | mustSelectTarget
  deriving DecidableEq, Repr

/-- Observable side effects of the melody operations: a chat message, the
StopCast call issued by `stop_current_cast`, or an actual spell cast
(`char_info->cast(gem, spell, 0, 0)`). -/
inductive Effect where
  | chat (m : ChatMsg)
  | stopCastCall
  | castSpell (gem : Int) (spell : Int)
  deriving DecidableEq, Repr

/-- Mutable state of the `Melody` class: the member variables `songs`,
`current_index`, `retry_count`, plus the two static timestamps local to
`tick` (`casting_visible_timestamp`, `start_of_cast_timestamp`). -/
structure Melody where
  songs : List Int
  current_index : Int
  retry_count : Nat
  casting_visible_timestamp : Nat
  start_of_cast_timestamp : Nat
  deriving DecidableEq, Repr

/-- `constexpr int RETRY_COUNT_REWIND_LIMIT = 8` (melody.cpp:42). -/
def RETRY_COUNT_REWIND_LIMIT : Nat := 8

/-- `constexpr int RETRY_COUNT_END_LIMIT = 15` (melody.cpp:43). -/
def RETRY_COUNT_END_LIMIT : Nat := 15

/-- Number of spell gems, `EQ_NUM_SPELL_GEMS` from the game headers (not
part of src/); the EverQuest client has 8 spell gems.  No claim depends on
the exact value, only on the range check `0 <= gem < EQ_NUM_SPELL_GEMS`. -/
def EQ_NUM_SPELL_GEMS : Int := 8

/-- 64-bit unsigned subtraction `a - b` as performed on the `ULONGLONG`
timestamps in `tick`; wraps modulo 2^64. -/
def usub64 (a b : Nat) : Nat :=
  (a % 2 ^ 64 + (2 ^ 64 - b % 2 ^ 64)) % 2 ^ 64

/-- The gem-validation loop of `Melody::start` (melody.cpp:64-77): returns
the chat message of the first offending entry, or `none` when every
requested gem index is in range and memorized. -/
def checkGems (ci : EQCHARINFO) : List Int → Option ChatMsg
  | [] => none
  | g :: rest =>
      if g < 0 ∨ EQ_NUM_SPELL_GEMS ≤ g then some ChatMsg.invalidGem
      else if ci.memorizedSpell g = -1 then some ChatMsg.emptyGem
      else checkGems ci rest

/-- `Melody::start` (melody.cpp:45-85).  Returns the C++ return value, the
new state and the emitted chat messages.  Note the source has no length
limit here: the only argument-count gate is in the `/melody` command
handler. -/
def Melody.start (env : Env) (s : Melody) (new_songs : List Int) :
    Bool × Melody × List Effect :=
  if env.is_in_game = false then (false, s, [])
  else
    match env.char_info with
    | none => (false, s, [Effect.chat ChatMsg.cannotStartStunned])
    | some char_info =>
      if char_info.stunnedState = true then
        (false, s, [Effect.chat ChatMsg.cannotStartStunned])
      else
        match env.self with
        | none => (false, s, [Effect.chat ChatMsg.mustStand])
        | some self =>
          if self.standingState ≠ Stance.Stand then
            (false, s, [Effect.chat ChatMsg.mustStand])
          else
            match checkGems char_info new_songs with
            | some m => (false, s, [Effect.chat m])
            | none =>
              (true,
               { s with songs := new_songs, current_index := -1, retry_count := 0 },
               if new_songs.length ≠ 0 then [Effect.chat ChatMsg.beginMelody] else [])

/-- `Melody::end` (melody.cpp:87-96); named `endMelody` because `end` is a
reserved word in Lean. -/
def Melody.endMelody (s : Melody) : Melody × List Effect :=
  if s.songs.length ≠ 0 then
    ({ s with current_index := -1, songs := [], retry_count := 0 },
     [Effect.chat ChatMsg.melodyEnded])
  else (s, [])

/-- The rewind step of `handle_stop_cast_callback` (melody.cpp:113-116):
`current_index--`, wrapping to `songs.size() - 1` when it goes negative. -/
def rewindIndex (len : Nat) (i : Int) : Int :=
  if i - 1 < 0 then (len : Int) - 1 else i - 1

/-- The advance step of `tick` (melody.cpp:176-178): `current_index++`,
wrapping to 0 when the result reaches `songs.size()` or is negative. -/
def advanceIndex (len : Nat) (i : Int) : Int :=
  if (len : Int) ≤ i + 1 ∨ i + 1 < 0 then 0 else i + 1

/-- `Melody::handle_stop_cast_callback` (melody.cpp:98-118).  The C++
condition `(current_index >= 0) && (++retry_count % RETRY_COUNT_REWIND_LIMIT)`
short-circuits: `retry_count` is incremented only when `current_index >= 0`,
and the rewind happens only when the incremented count is not a multiple
of the rewind limit. -/
def Melody.handle_stop_cast_callback (s : Melody) (reason : Nat) :
    Melody × List Effect :=
  if reason ≠ 3 ∨ s.songs.length = 0 then s.endMelody
  else if 0 ≤ s.current_index then
    if (s.retry_count + 1) % RETRY_COUNT_REWIND_LIMIT ≠ 0 then
      ({ s with retry_count := s.retry_count + 1,
                current_index := rewindIndex s.songs.length s.current_index }, [])
    else ({ s with retry_count := s.retry_count + 1 }, [])
  else (s, [])

/-- `Melody::stop_current_cast` (melody.cpp:126-132): issues the original
StopCast call when char info exists and `current_index` addresses a song.
It calls the hook's `original`, so it does not re-enter
`handle_stop_cast_callback`. -/
def Melody.stop_current_cast (env : Env) (s : Melody) : List Effect :=
  match env.char_info with
  | none => []
  | some _ =>
    if 0 ≤ s.current_index ∧ s.current_index < (s.songs.length : Int) then
      [Effect.stopCastCall]
    else []

/-- The forced-abort step of `tick` (melody.cpp:173-174): when the entity
is reported as bard-singing (`CastingSpellGemNumber == 255`), issue
`stop_current_cast`; it runs before the index advance, so it sees the
pre-advance `current_index`. -/
def tickAbortEffs (env : Env) (s : Melody) (self : Entity) : List Effect :=
  match self.actorInfo with
  | some ai =>
    if ai.castingSpellGemNumber = 255 then Melody.stop_current_cast env s else []
  | none => []

/-- The tail of `tick` after the index advance (melody.cpp:180-195):
empty-gem skip, targeting precondition, and the actual cast.  `newIndex`
is the already-advanced index; the record update `current_index := newIndex`
appears on every branch because the C++ `current_index++` has already
mutated the member when these checks run. -/
def tickPerform (env : Env) (s : Melody) (self : Entity)
    (char_info : EQCHARINFO) (newIndex : Int) : Melody × List Effect :=
  if char_info.memorizedSpell (s.songs.getD newIndex.toNat 0) = -1 then
    ({ s with current_index := newIndex }, tickAbortEffs env s self)
  else if env.hasSpellMgr = true ∧
          env.spellTargetType
            (char_info.memorizedSpell (s.songs.getD newIndex.toNat 0)) = 5 ∧
          env.hasTarget = false then
    ({ s with current_index := newIndex, retry_count := s.retry_count + 1 },
     tickAbortEffs env s self ++ [Effect.chat ChatMsg.mustSelectTarget])
  else
    ({ s with current_index := newIndex, start_of_cast_timestamp := env.now },
     tickAbortEffs env s self ++
       [Effect.castSpell (s.songs.getD newIndex.toNat 0)
          (char_info.memorizedSpell (s.songs.getD newIndex.toNat 0))])

/-- `Melody::tick` (melody.cpp:134-196).  In the casting-window branch the
source first assigns `casting_visible_timestamp = current_timestamp` and
then compares it against `start_of_cast_timestamp`, which is why the
comparison below uses `env.now` directly. -/
def Melody.tick (env : Env) (s : Melody) : Melody × List Effect :=
  if s.songs.length = 0 then (s, [])
  else
    match env.self, env.char_info with
    | some self, some char_info =>
      if env.is_in_game = false ∨ self.standingState = Stance.Sit ∨
         char_info.stunnedState = true ∨ RETRY_COUNT_END_LIMIT < s.retry_count then
        s.endMelody
      else if env.castingWindow = none ∨ env.castingWindow = some true then
        if 1000 < usub64 env.now s.start_of_cast_timestamp then
          ({ s with casting_visible_timestamp := env.now, retry_count := 0 }, [])
        else ({ s with casting_visible_timestamp := env.now }, [])
      else if usub64 env.now s.casting_visible_timestamp < 150 then (s, [])
      else if env.okToTransact = false ∨ self.standingState ≠ Stance.Stand then
        (s, [])
      else
        tickPerform env s self char_info (advanceIndex s.songs.length s.current_index)
    | _, _ => s.endMelody

/-- The argument-count gate of the `/melody` command handler
(melody.cpp:214): the handler rejects when `args.size() > 10`, where
`args[0]` is the command itself, so `numArgs` counts the command plus one
argument per requested song. -/
def melody_command_too_many_args (numArgs : Nat) : Bool :=
  decide (10 < numArgs)

/-- One externally driven step of the engine: a polling-cycle `tick` under
a host environment, or an asynchronous stop notification with a reason
byte. -/
inductive Event where
  | tick (env : Env)
  | stopCast (reason : Nat)

/-- State transition of one `Event` (side effects discarded). -/
def stepEv (s : Melody) (e : Event) : Melody :=
  match e with
  | Event.tick env => (Melody.tick env s).1
  | Event.stopCast r => (Melody.handle_stop_cast_callback s r).1

/-- Run a list of events from a state. -/
def runEvents (s : Melody) (evs : List Event) : Melody :=
  evs.foldl stepEv s

/-! ### Concrete host states used to exercise the engine -/

/-- A character with no stun and every gem memorized (spell id 42). -/
def benignCI : EQCHARINFO := { stunnedState := false, memorizedSpell := fun _ => 42 }

/-- A standing entity that is not currently singing. -/
def benignSelf : Entity := { standingState := Stance.Stand, actorInfo := none }

/-- A healthy host snapshot: in game, standing, casting window hidden,
transactable, spells need no target. -/
def benignEnv : Env :=
  { is_in_game := true, char_info := some benignCI, self := some benignSelf,
    okToTransact := true, castingWindow := some false, now := 100000,
    hasSpellMgr := true, spellTargetType := fun _ => 0, hasTarget := false }

/-- The idle Sequencer. -/
def idleState : Melody :=
  { songs := [], current_index := -1, retry_count := 0,
    casting_visible_timestamp := 0, start_of_cast_timestamp := 0 }

/-- A two-song run that has already advanced once (`current_index = 0`). -/
def run1 : Melody :=
  { songs := [0, 1], current_index := 0, retry_count := 0,
    casting_visible_timestamp := 0, start_of_cast_timestamp := 0 }

/-! ### Helper lemmas -/

/-- `end()` always leaves the song list empty. -/
theorem endMelody_songs (s : Melody) : s.endMelody.1.songs = [] := by
  unfold Melody.endMelody
  split <;> simp_all

/-- The rewound index stays in range when the old index was below the
length. -/
theorem rewindIndex_mem (len : Nat) (i : Int) (hlen : len ≠ 0)
    (hi : i < (len : Int)) :
    0 ≤ rewindIndex len i ∧ rewindIndex len i < (len : Int) := by
  unfold rewindIndex
  split <;> omega

/-- The advanced index always lands in range (for a nonempty list),
whatever the old index was. -/
theorem advanceIndex_mem (len : Nat) (i : Int) (hlen : len ≠ 0) :
    0 ≤ advanceIndex len i ∧ advanceIndex len i < (len : Int) := by
  unfold advanceIndex
  split <;> omega

/-- The post-advance tail of `tick` keeps the songs and installs exactly
the advanced index, on every one of its three branches. -/
theorem tickPerform_state (env : Env) (s : Melody) (self : Entity)
    (char_info : EQCHARINFO) (n : Int) :
    (tickPerform env s self char_info n).1.songs = s.songs ∧
    (tickPerform env s self char_info n).1.current_index = n := by
  unfold tickPerform
  split
  · exact ⟨rfl, rfl⟩
  · split <;> exact ⟨rfl, rfl⟩

/-- A retryable (reason 3) notification on a run whose index is in range:
songs are preserved, the counter increments by one, and the index stays in
range. -/
theorem stop3_step (s : Melody) (h0 : 0 ≤ s.current_index)
    (h1 : s.current_index < (s.songs.length : Int)) :
    (s.handle_stop_cast_callback 3).1.songs = s.songs ∧
    (s.handle_stop_cast_callback 3).1.retry_count = s.retry_count + 1 ∧
    0 ≤ (s.handle_stop_cast_callback 3).1.current_index ∧
    (s.handle_stop_cast_callback 3).1.current_index < (s.songs.length : Int) := by
  have hlen : s.songs.length ≠ 0 := by omega
  unfold Melody.handle_stop_cast_callback
  rw [if_neg (by simp [hlen]), if_pos h0]
  by_cases hmod : (s.retry_count + 1) % RETRY_COUNT_REWIND_LIMIT ≠ 0
  · rw [if_pos hmod]
    have hmem := rewindIndex_mem s.songs.length s.current_index hlen h1
    exact ⟨rfl, rfl, hmem.1, hmem.2⟩
  · rw [if_neg hmod]
    exact ⟨rfl, rfl, h0, h1⟩

/-- Iterating `n` retryable notifications from an in-range running state:
songs preserved, counter grows by `n`, index stays in range. -/
theorem stop3_run (n : Nat) (s : Melody) (h0 : 0 ≤ s.current_index)
    (h1 : s.current_index < (s.songs.length : Int)) :
    (runEvents s (List.replicate n (Event.stopCast 3))).songs = s.songs ∧
    (runEvents s (List.replicate n (Event.stopCast 3))).retry_count =
      s.retry_count + n ∧
    0 ≤ (runEvents s (List.replicate n (Event.stopCast 3))).current_index ∧
    (runEvents s (List.replicate n (Event.stopCast 3))).current_index <
      (s.songs.length : Int) := by
  induction n generalizing s with
  | zero => exact ⟨rfl, rfl, h0, h1⟩
  | succ m ih =>
    have hstep := stop3_step s h0 h1
    have hrec := ih (s.handle_stop_cast_callback 3).1 hstep.2.2.1
      (by rw [hstep.1]; exact hstep.2.2.2)
    rw [List.replicate_succ]
    simp only [runEvents, List.foldl_cons] at hrec ⊢
    have hsEv : stepEv s (Event.stopCast 3) = (s.handle_stop_cast_callback 3).1 := rfl
    rw [hsEv]
    refine ⟨by rw [hrec.1, hstep.1], ?_, hrec.2.2.1, ?_⟩
    · rw [hrec.2.1, hstep.2.1]; omega
    · rw [hstep.1] at hrec
      exact hrec.2.2.2

/-- Once `retry_count` exceeds the end limit, `tick` terminates the run
under every environment. -/
theorem tick_ends_high_retry (env : Env) (s : Melody)
    (hne : s.songs.length ≠ 0) (hr : RETRY_COUNT_END_LIMIT < s.retry_count) :
    (Melody.tick env s).1.songs = [] ∧
    (Melody.tick env s).1.current_index = -1 ∧
    (Melody.tick env s).1.retry_count = 0 := by
  have hend : s.endMelody =
      ({ s with current_index := -1, songs := [], retry_count := 0 },
       [Effect.chat ChatMsg.melodyEnded]) := by
    unfold Melody.endMelody
    rw [if_pos hne]
  unfold Melody.tick
  rw [if_neg hne]
  rcases henv : env.self with _ | self <;> rcases henv2 : env.char_info with _ | char_info <;>
    simp only [henv, henv2] <;>
    first
      | (rw [if_pos (Or.inr (Or.inr (Or.inr hr))), hend]; exact ⟨rfl, rfl, rfl⟩)
      | (rw [hend]; exact ⟨rfl, rfl, rfl⟩)

/-! ### C1 -/

/-- C1: the claim says `start` rejects any requested sequence longer than 5
entries.  The code disagrees: `Melody::start` contains no length check at
all, so with a healthy host `start([1,1,1,1,1,1])` (6 entries) succeeds and
installs all six songs; moreover the `/melody` handler's argument gate
(`args.size() > 10`) passes 7 arguments (command word + 6 songs), so the
command path does not reject it either — even though the code's own
comments and its user-facing message state a 5-song limit. -/
theorem c1_start_accepts_six_songs :
    (Melody.start benignEnv idleState [1, 1, 1, 1, 1, 1]).1 = true ∧
    (Melody.start benignEnv idleState [1, 1, 1, 1, 1, 1]).2.1.songs =
      [1, 1, 1, 1, 1, 1] ∧
    melody_command_too_many_args 7 = false :=
  ⟨by decide, by decide, by decide⟩

/-! ### C2 -/

/-- C2 counterexample: from a running two-song state with `retry_count = 0`,
15 consecutive retryable interruptions leave `retry_count = 15`, and the
very next `tick` under a healthy environment does NOT terminate the run —
it performs the next song (`retry_count > RETRY_COUNT_END_LIMIT` is false
at 15, since the check is strict). -/
theorem c2_fifteen_interruptions_not_enough :
    (runEvents run1 (List.replicate 15 (Event.stopCast 3))).retry_count = 15 ∧
    (Melody.tick benignEnv
        (runEvents run1 (List.replicate 15 (Event.stopCast 3)))).1.songs = [0, 1] ∧
    (Melody.tick benignEnv
        (runEvents run1 (List.replicate 15 (Event.stopCast 3)))).2 =
      [Effect.castSpell 1 42] :=
  ⟨by decide, by decide, by decide⟩

/-- C2 amended: starting from `retry_count = 0` on a running Sequencer with
an in-range index, after exactly 16 consecutive retryable interruptions
(`retry_count = 16 > RETRY_COUNT_END_LIMIT`) the very next `tick` — under
any environment — terminates the run: `end()` runs, `actions` becomes
empty and `current_index` resets to -1. -/
theorem c2_sixteen_interruptions_then_tick_ends (env : Env) (s : Melody)
    (h0 : 0 ≤ s.current_index) (h1 : s.current_index < (s.songs.length : Int))
    (hr : s.retry_count = 0) :
    (runEvents s (List.replicate 16 (Event.stopCast 3))).retry_count = 16 ∧
    (Melody.tick env (runEvents s (List.replicate 16 (Event.stopCast 3)))).1.songs
      = [] ∧
    (Melody.tick env
        (runEvents s (List.replicate 16 (Event.stopCast 3)))).1.current_index
      = -1 := by
  have hrun := stop3_run 16 s h0 h1
  have hretry :
      (runEvents s (List.replicate 16 (Event.stopCast 3))).retry_count = 16 := by
    rw [hrun.2.1, hr]
  have hne :
      (runEvents s (List.replicate 16 (Event.stopCast 3))).songs.length ≠ 0 := by
    rw [hrun.1]; omega
  have hends := tick_ends_high_retry env _ hne (by rw [hretry]; decide)
  exact ⟨hretry, hends.1, hends.2.1⟩

/-- C2 witness: the amended theorem applied to the concrete two-song run
and the healthy environment. -/
theorem c2_sixteen_witness :
    run1.current_index = 0 ∧ run1.songs.length = 2 ∧ run1.retry_count = 0 ∧
    (runEvents run1 (List.replicate 16 (Event.stopCast 3))).retry_count = 16 ∧
    (Melody.tick benignEnv
        (runEvents run1 (List.replicate 16 (Event.stopCast 3)))).1.songs = [] :=
  ⟨by decide, by decide, by decide,
   (c2_sixteen_interruptions_then_tick_ends benignEnv run1 (by decide) (by decide)
      (by decide)).1,
   (c2_sixteen_interruptions_then_tick_ends benignEnv run1 (by decide) (by decide)
      (by decide)).2.1⟩

/-! ### C3 -/

/-- C3: on a running Sequencer with `current_index` in `[0, len)`, a
retryable-interruption notification increments `retry_count`, then rewinds
(decrementing `current_index`, wrapping to `len - 1` when it would go
negative — `rewindIndex`) exactly when the new count is not a multiple of
`RETRY_COUNT_REWIND_LIMIT` (8), and leaves `current_index` unchanged
exactly when the new count is a multiple of 8 (so the next tick advances
past the current action). -/
theorem c3_rewind_policy (s : Melody) (h0 : 0 ≤ s.current_index)
    (h1 : s.current_index < (s.songs.length : Int)) :
    (s.handle_stop_cast_callback 3).1.retry_count = s.retry_count + 1 ∧
    ((s.retry_count + 1) % RETRY_COUNT_REWIND_LIMIT ≠ 0 →
      (s.handle_stop_cast_callback 3).1.current_index =
        rewindIndex s.songs.length s.current_index) ∧
    ((s.retry_count + 1) % RETRY_COUNT_REWIND_LIMIT = 0 →
      (s.handle_stop_cast_callback 3).1.current_index = s.current_index) := by
  have hlen : s.songs.length ≠ 0 := by omega
  unfold Melody.handle_stop_cast_callback
  rw [if_neg (by simp [hlen]), if_pos h0]
  by_cases hmod : (s.retry_count + 1) % RETRY_COUNT_REWIND_LIMIT ≠ 0
  · rw [if_pos hmod]
    exact ⟨rfl, fun _ => rfl, fun h => absurd h hmod⟩
  · rw [if_neg hmod]
    rw [not_not] at hmod
    exact ⟨rfl, fun h => absurd hmod h, fun _ => rfl⟩

/-- C3 witness: the rewind policy applied to the concrete two-song run:
the first interruption gives `retry_count = 1` and, since `1 % 8 ≠ 0`, the
index rewinds from 0 and wraps to `len - 1 = 1`. -/
theorem c3_rewind_witness :
    run1.current_index = 0 ∧ run1.songs.length = 2 ∧
    (run1.handle_stop_cast_callback 3).1.retry_count = run1.retry_count + 1 ∧
    (run1.handle_stop_cast_callback 3).1.current_index =
      rewindIndex run1.songs.length run1.current_index :=
  ⟨by decide, by decide,
   (c3_rewind_policy run1 (by decide) (by decide)).1,
   (c3_rewind_policy run1 (by decide) (by decide)).2.1 (by decide)⟩

/-! ### C4 -/

/-- C4 counterexample: the claim says a retryable stop notification
increments `retry_count` even when `current_index = -1` (between a
successful `start` and the first advancing tick).  In the code the C++
short-circuit `(current_index >= 0) && (++retry_count % ...)` skips the
increment in that state: on `songs = [0, 1]`, `current_index = -1`,
`retry_count = 0`, the handler returns the state unchanged with
`retry_count` still 0. -/
theorem c4_no_increment_at_minus_one :
    Melody.handle_stop_cast_callback { run1 with current_index := -1 } 3 =
      ({ run1 with current_index := -1 }, []) ∧
    (Melody.handle_stop_cast_callback
        { run1 with current_index := -1 } 3).1.retry_count = 0 :=
  ⟨by decide, by decide⟩

/-- C4 amended: on a non-idle Sequencer, a retryable stop notification
increments `retry_count` by exactly 1 when `current_index ≥ 0`; when
`current_index` is still -1 it leaves the whole state (and in particular
`retry_count`) unchanged. -/
theorem c4_retry_increment (s : Melody) (hne : s.songs.length ≠ 0) :
    (0 ≤ s.current_index →
      (s.handle_stop_cast_callback 3).1.retry_count = s.retry_count + 1) ∧
    (s.current_index < 0 → s.handle_stop_cast_callback 3 = (s, [])) := by
  unfold Melody.handle_stop_cast_callback
  rw [if_neg (by simp [hne])]
  constructor
  · intro h0
    rw [if_pos h0]
    split <;> rfl
  · intro hneg
    rw [if_neg (by omega)]

/-- C4 witness: the amended theorem at the concrete two-song run (index 0)
and at the same run before its first advancing tick (index -1). -/
theorem c4_retry_witness :
    run1.songs.length = 2 ∧
    (run1.handle_stop_cast_callback 3).1.retry_count = run1.retry_count + 1 ∧
    Melody.handle_stop_cast_callback { run1 with current_index := -1 } 3 =
      ({ run1 with current_index := -1 }, []) :=
  ⟨by decide,
   (c4_retry_increment run1 (by decide)).1 (by decide),
   (c4_retry_increment { run1 with current_index := -1 } (by decide)).2 (by decide)⟩

/-! ### C5 -/

/-- Range invariant on the current position: either the run is over (no
songs) or `current_index` addresses a song. -/
def indexInv (s : Melody) : Prop :=
  s.songs.length = 0 ∨
  (0 ≤ s.current_index ∧ s.current_index < (s.songs.length : Int))

/-- `end()` re-establishes the invariant trivially (left disjunct). -/
theorem indexInv_end (s : Melody) : indexInv s.endMelody.1 :=
  Or.inl (by rw [endMelody_songs]; rfl)

/-- The stop-notification handler preserves the range invariant for every
reason code. -/
theorem stop_preserves_indexInv (r : Nat) (s : Melody) (h : indexInv s) :
    indexInv (s.handle_stop_cast_callback r).1 := by
  unfold Melody.handle_stop_cast_callback
  by_cases hcond : r ≠ 3 ∨ s.songs.length = 0
  · rw [if_pos hcond]; exact indexInv_end s
  · rw [if_neg hcond]
    push_neg at hcond
    obtain ⟨hr3, hlen⟩ := hcond
    obtain ⟨hin0, hin1⟩ := h.resolve_left hlen
    rw [if_pos hin0]
    by_cases hmod : (s.retry_count + 1) % RETRY_COUNT_REWIND_LIMIT ≠ 0
    · rw [if_pos hmod]
      exact Or.inr ⟨(rewindIndex_mem s.songs.length s.current_index hlen hin1).1,
        (rewindIndex_mem s.songs.length s.current_index hlen hin1).2⟩
    · rw [if_neg hmod]
      exact Or.inr ⟨hin0, hin1⟩

/-- `tick` preserves the range invariant under every environment. -/
theorem tick_preserves_indexInv (env : Env) (s : Melody) (h : indexInv s) :
    indexInv (Melody.tick env s).1 := by
  unfold Melody.tick
  by_cases hne : s.songs.length = 0
  · rw [if_pos hne]; exact h
  · rw [if_neg hne]
    obtain ⟨hin0, hin1⟩ := h.resolve_left hne
    rcases henv : env.self with _ | self <;>
      rcases henv2 : env.char_info with _ | char_info <;>
        simp only [henv, henv2]
    · exact indexInv_end s
    · exact indexInv_end s
    · exact indexInv_end s
    · by_cases hhard : env.is_in_game = false ∨ self.standingState = Stance.Sit ∨
        char_info.stunnedState = true ∨ RETRY_COUNT_END_LIMIT < s.retry_count
      · rw [if_pos hhard]; exact indexInv_end s
      · rw [if_neg hhard]
        by_cases hvis : env.castingWindow = none ∨ env.castingWindow = some true
        · rw [if_pos hvis]
          by_cases hgt : 1000 < usub64 env.now s.start_of_cast_timestamp
          · rw [if_pos hgt]; exact Or.inr ⟨hin0, hin1⟩
          · rw [if_neg hgt]; exact Or.inr ⟨hin0, hin1⟩
        · rw [if_neg hvis]
          by_cases hcool : usub64 env.now s.casting_visible_timestamp < 150
          · rw [if_pos hcool]; exact Or.inr ⟨hin0, hin1⟩
          · rw [if_neg hcool]
            by_cases hbusy : env.okToTransact = false ∨
              self.standingState ≠ Stance.Stand
            · rw [if_pos hbusy]; exact Or.inr ⟨hin0, hin1⟩
            · rw [if_neg hbusy]
              obtain ⟨hs, hc⟩ := tickPerform_state env s self char_info
                (advanceIndex s.songs.length s.current_index)
              have hmem := advanceIndex_mem s.songs.length s.current_index hne
              exact Or.inr ⟨by rw [hc]; exact hmem.1, by rw [hc, hs]; exact hmem.2⟩

/-- Any single event (a `tick` under any environment, or any stop
notification) preserves the range invariant. -/
theorem stepEv_preserves_indexInv (s : Melody) (e : Event) (h : indexInv s) :
    indexInv (stepEv s e) := by
  cases e with
  | tick env => exact tick_preserves_indexInv env s h
  | stopCast r => exact stop_preserves_indexInv r s h

/-- C5: once a run has an in-range `current_index` (as after the first
advancing tick), every subsequent sequence of tick advances and
stop-notification rewinds keeps `current_index` in `[0, len(actions))` for
as long as the run is alive: after any event sequence, either the run has
ended (no songs) or the index still addresses a song.  Advance wraps to 0
at or beyond the end and rewind wraps to `len - 1` below 0, so the index
never leaves its valid range. -/
theorem c5_index_stays_in_range (s : Melody) (evs : List Event)
    (h0 : 0 ≤ s.current_index)
    (h1 : s.current_index < (s.songs.length : Int)) :
    (runEvents s evs).songs.length = 0 ∨
    (0 ≤ (runEvents s evs).current_index ∧
     (runEvents s evs).current_index < ((runEvents s evs).songs.length : Int)) := by
  have hrun : ∀ (l : List Event) (t : Melody), indexInv t → indexInv (runEvents t l) := by
    intro l
    induction l with
    | nil => intro t ht; exact ht
    | cons e rest ih =>
      intro t ht
      exact ih (stepEv t e) (stepEv_preserves_indexInv t e ht)
  exact hrun evs s (Or.inr ⟨h0, h1⟩)

/-- C5 witness: the invariant theorem applied to the concrete two-song run
and a mixed sequence of ticks, retryable and non-retryable stops. -/
theorem c5_index_witness :
    run1.current_index = 0 ∧ run1.songs.length = 2 ∧
    ((runEvents run1
        [Event.stopCast 3, Event.tick benignEnv, Event.stopCast 3,
         Event.stopCast 3, Event.tick benignEnv]).songs.length = 0 ∨
     (0 ≤ (runEvents run1
        [Event.stopCast 3, Event.tick benignEnv, Event.stopCast 3,
         Event.stopCast 3, Event.tick benignEnv]).current_index ∧
      (runEvents run1
        [Event.stopCast 3, Event.tick benignEnv, Event.stopCast 3,
         Event.stopCast 3, Event.tick benignEnv]).current_index <
        ((runEvents run1
        [Event.stopCast 3, Event.tick benignEnv, Event.stopCast 3,
         Event.stopCast 3, Event.tick benignEnv]).songs.length : Int))) :=
  ⟨by decide, by decide,
   c5_index_stays_in_range run1
     [Event.stopCast 3, Event.tick benignEnv, Event.stopCast 3,
      Event.stopCast 3, Event.tick benignEnv] (by decide) (by decide)⟩

/-! ### C6 -/

/-- With a retryable reason and a live run the handler never clears the
song list, whatever `retry_count` is. -/
theorem stop3_songs (s : Melody) (hne : s.songs.length ≠ 0) :
    (s.handle_stop_cast_callback 3).1.songs = s.songs := by
  unfold Melody.handle_stop_cast_callback
  rw [if_neg (by simp [hne])]
  split
  · split <;> rfl
  · rfl

/-- On an idle Sequencer the handler's `end()` call leaves the song list
empty, for every reason code. -/
theorem stop_songs_idle (s : Melody) (r : Nat) (h : s.songs = []) :
    (s.handle_stop_cast_callback r).1.songs = [] := by
  unfold Melody.handle_stop_cast_callback
  rw [if_pos (Or.inr (by simp [h]))]
  exact endMelody_songs s

/-- A non-retryable reason terminates the run unconditionally. -/
theorem stop_songs_nonretry (s : Melody) (r : Nat) (hr : r ≠ 3) :
    (s.handle_stop_cast_callback r).1.songs = [] := by
  unfold Melody.handle_stop_cast_callback
  rw [if_pos (Or.inl hr)]
  exact endMelody_songs s

/-- C6: the stop handler terminates the run (its `end()` branch runs and
`actions` ends up empty) iff the Sequencer is idle or the reason is not
the retryable code 3; with reason 3 on a non-idle Sequencer it never
itself ends the run — the song list is preserved no matter how large
`retry_count` has grown. -/
theorem c6_stop_terminates_iff (s : Melody) (r : Nat) :
    ((s.handle_stop_cast_callback r).1.songs = [] ↔ (s.songs = [] ∨ r ≠ 3)) ∧
    (r = 3 → s.songs ≠ [] →
      (s.handle_stop_cast_callback r).1.songs = s.songs) := by
  constructor
  · constructor
    · intro hempty
      by_cases hr : r = 3
      · subst hr
        by_cases hnil : s.songs = []
        · exact Or.inl hnil
        · exfalso
          rw [stop3_songs s (by simpa using hnil)] at hempty
          exact hnil hempty
      · exact Or.inr hr
    · rintro (hnil | hr)
      · exact stop_songs_idle s r hnil
      · exact stop_songs_nonretry s r hr
  · intro hr hnil
    subst hr
    exact stop3_songs s (by simpa using hnil)

/-- C6 witness: on the concrete two-song run, a reason-3 stop (even with a
huge `retry_count`) keeps the songs, while a reason-0 stop clears them;
on the idle state any reason leaves the list empty. -/
theorem c6_stop_witness :
    ({ run1 with retry_count := 1000 }.handle_stop_cast_callback 3).1.songs =
      { run1 with retry_count := 1000 }.songs ∧
    (run1.handle_stop_cast_callback 0).1.songs = [] ∧
    (idleState.handle_stop_cast_callback 3).1.songs = [] :=
  ⟨(c6_stop_terminates_iff { run1 with retry_count := 1000 } 3).2 rfl (by decide),
   (c6_stop_terminates_iff run1 0).1.mpr (Or.inr (by decide)),
   (c6_stop_terminates_iff idleState 3).1.mpr (Or.inl (by decide))⟩

/-! ### C7 -/

/-- C7: a rejected `start` is atomic — whenever any precondition fails
(world not active, char info missing or stunned, self missing or not
standing, or some requested slot out of range / referencing an empty gem),
`start` returns false and the whole previous state is kept. -/
theorem c7_start_rejected_atomic (env : Env) (s : Melody) (req : List Int)
    (hfail :
      env.is_in_game = false ∨
      env.char_info = none ∨
      (∃ ci, env.char_info = some ci ∧ ci.stunnedState = true) ∨
      env.self = none ∨
      (∃ e, env.self = some e ∧ e.standingState ≠ Stance.Stand) ∨
      (∃ ci, env.char_info = some ci ∧ checkGems ci req ≠ none)) :
    (Melody.start env s req).1 = false ∧ (Melody.start env s req).2.1 = s := by
  unfold Melody.start
  split
  · exact ⟨rfl, rfl⟩
  · next hg =>
    split
    · exact ⟨rfl, rfl⟩
    · next char_info hci =>
      split
      · exact ⟨rfl, rfl⟩
      · next hst =>
        split
        · exact ⟨rfl, rfl⟩
        · next self hself =>
          split
          · exact ⟨rfl, rfl⟩
          · next hstand =>
            split
            · exact ⟨rfl, rfl⟩
            · next hcg =>
              exfalso
              rcases hfail with h | h | ⟨ci2, hci2, hs2⟩ | h | ⟨e2, he2, hs2⟩ |
                ⟨ci2, hci2, hs2⟩
              · exact hg h
              · rw [hci] at h; cases h
              · rw [hci] at hci2
                injection hci2 with heq
                subst heq
                exact hst hs2
              · rw [hself] at h; cases h
              · rw [hself] at he2
                injection he2 with heq
                subst heq
                exact hstand hs2
              · rw [hci] at hci2
                injection hci2 with heq
                subst heq
                exact hs2 hcg

/-- A host snapshot whose character is stunned (all else healthy). -/
def stunnedEnv : Env :=
  { benignEnv with
      char_info := some { stunnedState := true, memorizedSpell := fun _ => 42 } }

/-- C7 witness: a stunned character rejects `start([1])` and the previous
run is kept intact. -/
theorem c7_start_witness :
    (∃ ci, stunnedEnv.char_info = some ci ∧ ci.stunnedState = true) ∧
    (Melody.start stunnedEnv run1 [1]).1 = false ∧
    (Melody.start stunnedEnv run1 [1]).2.1 = run1 :=
  ⟨⟨{ stunnedState := true, memorizedSpell := fun _ => 42 }, rfl, rfl⟩,
   (c7_start_rejected_atomic stunnedEnv run1 [1]
      (Or.inr (Or.inr (Or.inl
        ⟨{ stunnedState := true, memorizedSpell := fun _ => 42 }, rfl, rfl⟩)))).1,
   (c7_start_rejected_atomic stunnedEnv run1 [1]
      (Or.inr (Or.inr (Or.inl
        ⟨{ stunnedState := true, memorizedSpell := fun _ => 42 }, rfl, rfl⟩)))).2⟩

/-! ### C8 -/

/-- `end()` on an idle Sequencer is the identity and emits nothing. -/
theorem endMelody_of_empty (s : Melody) (h : s.songs = []) :
    s.endMelody = (s, []) := by
  unfold Melody.endMelody
  rw [if_neg (by simp [h])]

/-- `end()` on a live run clears the run and emits one notification. -/
theorem endMelody_of_nonempty (s : Melody) (h : s.songs ≠ []) :
    s.endMelody =
      ({ s with current_index := -1, songs := [], retry_count := 0 },
       [Effect.chat ChatMsg.melodyEnded]) := by
  unfold Melody.endMelody
  rw [if_pos (by simpa using h)]

/-- C8: `end()` is an idempotent full reset — on a live run it clears
`actions`, sets `current_index` to -1 and `retry_count` to 0 and emits
exactly one "ended" notification; on an idle Sequencer it changes nothing
and emits nothing, so a second `end()` right after a first one is always a
no-op. -/
theorem c8_end_idempotent_full_reset (s : Melody) :
    (s.songs ≠ [] →
      s.endMelody.1.songs = [] ∧ s.endMelody.1.current_index = -1 ∧
      s.endMelody.1.retry_count = 0 ∧
      s.endMelody.2 = [Effect.chat ChatMsg.melodyEnded]) ∧
    (s.songs = [] → s.endMelody = (s, [])) ∧
    s.endMelody.1.endMelody = (s.endMelody.1, []) := by
  by_cases hnil : s.songs = []
  · refine ⟨fun hcon => absurd hnil hcon, fun _ => endMelody_of_empty s hnil, ?_⟩
    rw [endMelody_of_empty s hnil]
    exact endMelody_of_empty s hnil
  · refine ⟨fun _ => ?_, fun hcon => absurd hcon hnil, ?_⟩
    · rw [endMelody_of_nonempty s hnil]
      exact ⟨rfl, rfl, rfl, rfl⟩
    · rw [endMelody_of_nonempty s hnil]
      exact endMelody_of_empty _ rfl

/-- C8 witness: the idempotent-reset theorem at the concrete two-song run
and at the idle state. -/
theorem c8_end_witness :
    run1.songs = [0, 1] ∧
    run1.endMelody.1.songs = [] ∧
    run1.endMelody.2 = [Effect.chat ChatMsg.melodyEnded] ∧
    idleState.endMelody = (idleState, []) ∧
    run1.endMelody.1.endMelody = (run1.endMelody.1, []) :=
  ⟨by decide,
   ((c8_end_idempotent_full_reset run1).1 (by decide)).1,
   ((c8_end_idempotent_full_reset run1).1 (by decide)).2.2.2,
   (c8_end_idempotent_full_reset idleState).2.1 (by decide),
   (c8_end_idempotent_full_reset run1).2.2⟩

/-! ### C9 -/

/-- For timestamps below 2^64 in monotone order, the wrapped 64-bit
subtraction is plain subtraction. -/
theorem usub64_eq (a b : Nat) (hb : b ≤ a) (ha : a < 2 ^ 64) :
    usub64 a b = a - b := by
  have h64 : (2 : Nat) ^ 64 = 18446744073709551616 := by norm_num
  unfold usub64
  rw [h64]
  rw [h64] at ha
  omega

/-- C9: while the casting indicator is visible or structurally absent (and
no hard-termination condition holds), `tick` returns without advancing
`current_index`, without touching the songs and without performing any
action; it resets `retry_count` to 0 exactly when more than 1000 ms have
elapsed since the current action attempt began, and leaves it unchanged
otherwise. -/
theorem c9_casting_window_debounce (env : Env) (s : Melody)
    (self : Entity) (char_info : EQCHARINFO)
    (hne : s.songs.length ≠ 0)
    (hself : env.self = some self) (hchar : env.char_info = some char_info)
    (hgame : env.is_in_game = true) (hsit : self.standingState ≠ Stance.Sit)
    (hstun : char_info.stunnedState = false)
    (hretry : s.retry_count ≤ RETRY_COUNT_END_LIMIT)
    (hvis : env.castingWindow = none ∨ env.castingWindow = some true)
    (hmono : s.start_of_cast_timestamp ≤ env.now) (hnow : env.now < 2 ^ 64) :
    (Melody.tick env s).1.songs = s.songs ∧
    (Melody.tick env s).1.current_index = s.current_index ∧
    (Melody.tick env s).2 = [] ∧
    (1000 < env.now - s.start_of_cast_timestamp →
      (Melody.tick env s).1.retry_count = 0) ∧
    (¬ 1000 < env.now - s.start_of_cast_timestamp →
      (Melody.tick env s).1.retry_count = s.retry_count) := by
  have husub : usub64 env.now s.start_of_cast_timestamp =
      env.now - s.start_of_cast_timestamp :=
    usub64_eq env.now s.start_of_cast_timestamp hmono hnow
  unfold Melody.tick
  rw [if_neg hne]
  simp only [hself, hchar]
  rw [if_neg (by
    rintro (hcon | hcon | hcon | hcon)
    · rw [hgame] at hcon; cases hcon
    · exact hsit hcon
    · rw [hstun] at hcon; cases hcon
    · omega)]
  rw [if_pos hvis, husub]
  by_cases hgt : 1000 < env.now - s.start_of_cast_timestamp
  · rw [if_pos hgt]
    exact ⟨rfl, rfl, rfl, fun _ => rfl, fun hcon => absurd hgt hcon⟩
  · rw [if_neg hgt]
    exact ⟨rfl, rfl, rfl, fun hcon => absurd hcon hgt, fun _ => rfl⟩

/-- A healthy host snapshot with the casting window visible at time 5000. -/
def visibleEnv : Env := { benignEnv with castingWindow := some true, now := 5000 }

/-- C9 witness: the debounce theorem at the concrete two-song run under a
visible casting window 5000 ms after the cast began: the counter resets,
the index does not move and no action is performed. -/
theorem c9_debounce_witness :
    1000 < visibleEnv.now - run1.start_of_cast_timestamp ∧
    (Melody.tick visibleEnv run1).1.retry_count = 0 ∧
    (Melody.tick visibleEnv run1).1.current_index = run1.current_index ∧
    (Melody.tick visibleEnv run1).2 = [] :=
  ⟨by decide,
   (c9_casting_window_debounce visibleEnv run1 benignSelf benignCI (by decide) rfl
      rfl rfl (by decide) rfl (by decide) (Or.inr rfl) (by decide)
      (by decide)).2.2.2.1 (by decide),
   (c9_casting_window_debounce visibleEnv run1 benignSelf benignCI (by decide) rfl
      rfl rfl (by decide) rfl (by decide) (Or.inr rfl) (by decide)
      (by decide)).2.1,
   (c9_casting_window_debounce visibleEnv run1 benignSelf benignCI (by decide) rfl
      rfl rfl (by decide) rfl (by decide) (Or.inr rfl) (by decide)
      (by decide)).2.2.1⟩

/-! ### C10 -/

/-- C10: outside the hard-termination branch (world inactive, entity or
char info missing, sitting, stunned, or `retry_count` over the end limit),
no path through `tick` modifies the song list: the idle return, the
casting-window debounce, the cooldown, the busy-state deferral, the
empty-gem skip, the targeting-failure path and the execute path all leave
`actions` exactly as it was. -/
theorem c10_tick_preserves_songs (env : Env) (s : Melody)
    (self : Entity) (char_info : EQCHARINFO)
    (hself : env.self = some self) (hchar : env.char_info = some char_info)
    (hgame : env.is_in_game = true) (hsit : self.standingState ≠ Stance.Sit)
    (hstun : char_info.stunnedState = false)
    (hretry : s.retry_count ≤ RETRY_COUNT_END_LIMIT) :
    (Melody.tick env s).1.songs = s.songs := by
  unfold Melody.tick
  by_cases hne : s.songs.length = 0
  · rw [if_pos hne]
  · rw [if_neg hne]
    simp only [hself, hchar]
    rw [if_neg (by
      rintro (hcon | hcon | hcon | hcon)
      · rw [hgame] at hcon; cases hcon
      · exact hsit hcon
      · rw [hstun] at hcon; cases hcon
      · omega)]
    by_cases hvis : env.castingWindow = none ∨ env.castingWindow = some true
    · rw [if_pos hvis]
      by_cases hgt : 1000 < usub64 env.now s.start_of_cast_timestamp
      · rw [if_pos hgt]
      · rw [if_neg hgt]
    · rw [if_neg hvis]
      by_cases hcool : usub64 env.now s.casting_visible_timestamp < 150
      · rw [if_pos hcool]
      · rw [if_neg hcool]
        by_cases hbusy : env.okToTransact = false ∨
          self.standingState ≠ Stance.Stand
        · rw [if_pos hbusy]
        · rw [if_neg hbusy]
          exact (tickPerform_state env s self char_info
            (advanceIndex s.songs.length s.current_index)).1

/-- C10 witness: the frame theorem at the concrete two-song run under the
healthy environment (the tick takes the execute path and still keeps the
song list). -/
theorem c10_frame_witness :
    run1.retry_count ≤ RETRY_COUNT_END_LIMIT ∧
    (Melody.tick benignEnv run1).1.songs = run1.songs :=
  ⟨by decide,
   c10_tick_preserves_songs benignEnv run1 benignSelf benignCI rfl rfl rfl
     (by decide) rfl (by decide)⟩
